import Mathlib

/-!
Verification of the core boundary-crossing protocol of the `ffi-utils` crate
(maidsafe/ffi-utils): panic containment (`src/catch_unwind.rs`), result and
error encoding (`src/result.rs`, `src/macros.rs`), string conversion
(`src/string.rs`), buffer ownership transfer (`src/vec.rs`), callback
defaults (`src/callback.rs`) and the synchronous test harness
(`src/test_utils.rs`).

Modelling conventions (shallow embedding):
* A C string pointer is `Option String`: `none` is the null pointer, `some s`
  is a non-null pointer to a NUL-terminated buffer holding the bytes of `s`.
  Every C string handled by this library originates from a Rust `String`, so
  the pointed-to bytes are always valid UTF-8 in every reachable state.
* A raw data pointer is the inductive `Ptr` recording only the property the
  code branches on: null, dangling-but-non-null (what `as_mut_ptr` of an
  empty boxed slice returns, e.g. the aligned address 0x1), or a valid
  pointer into a live allocation.
* A closure passed to `catch_unwind` is its observable outcome `FnOutcome`:
  it either panics or returns a `Result` (Lean `Except`).
* Callback invocations performed by a wrapper are collected in a list; a
  Rust panic of the wrapper itself (e.g. via `unwrap!`) is `Option.none`.
* Rust `i32` codes are `Int` (no arithmetic is performed on codes anywhere
  in the crate, so no wrap-around modelling is needed).
-/

namespace FfiUtils

/-- `true` iff the string contains an interior NUL character.  This is the
exact failure condition of `std::ffi::CString::new` (Rust strings are UTF-8,
so byte 0 occurs iff the scalar value U+0000 occurs). -/
def containsNul (s : String) : Bool :=
  s.data.any (fun c => c = Char.ofNat 0)

/-- `StringError` from `src/string.rs`. -/
inductive StringError where
  | utf8 (msg : String)
  | null (msg : String)
  | intoString (msg : String)
deriving DecidableEq, Repr

/-- `CString::new` on the bytes of a Rust string: fails exactly on an
interior NUL, otherwise yields a non-null NUL-terminated C string with the
same contents.  The error message is std's `NulError` description, as
converted by `impl From<NulError> for StringError` in `src/string.rs`. -/
def cstring_new (s : String) : Except StringError String :=
  if containsNul s then .error (.null "nul byte found in provided data")
  else .ok s

/-- `from_c_str` from `src/string.rs`: null pointer is an error; otherwise
copy the pointed-to bytes into a new `String` (UTF-8 validation cannot fail
in this model, see the conventions above). -/
def from_c_str (p : Option String) : Except StringError String :=
  match p with
  | none => .error (.null "String could not be constructed from C null pointer")
  | some s => .ok s

/-- `impl ReprC for String` in `src/string.rs`: a null `c_repr` yields
`String::default()` (the empty string); a non-null one goes through
`from_c_str`. -/
def string_clone_from_repr_c (p : Option String) : Except StringError String :=
  match p with
  | none => .ok ""
  | some s => from_c_str (some s)

/-- `FfiResult` from `src/result.rs`: `{ error_code: i32, description: *const c_char }`.
The description field is a C string pointer (`none` = null). -/
structure FfiResult where
  error_code : Int
  description : Option String
deriving DecidableEq, Repr

/-- `NativeResult` from `src/result.rs`: the native Rust form, with an
`Option<String>` description. -/
structure NativeResult where
  error_code : Int
  description : Option String
deriving DecidableEq, Repr

/-- `FFI_RESULT_OK` from `src/result.rs`: code 0, null description. -/
def FFI_RESULT_OK : FfiResult :=
  { error_code := 0, description := none }

/-- `NativeResult::into_repr_c` from `src/result.rs`: a `Some` description
goes through `CString::new` (which can fail on an interior NUL); `None`
becomes the null pointer. -/
def NativeResult.into_repr_c (r : NativeResult) : Except StringError FfiResult :=
  match r.description with
  | some d => (cstring_new d).map (fun c => { error_code := r.error_code, description := some c })
  | none => .ok { error_code := r.error_code, description := none }

/-- `impl ReprC for NativeResult` in `src/result.rs`: a null description
pointer becomes `None`; a non-null one is read back with `from_c_str`. -/
def NativeResult.clone_from_repr_c (c : FfiResult) : Except StringError NativeResult :=
  match c.description with
  | none => .ok { error_code := c.error_code, description := none }
  | some s => (from_c_str (some s)).map
      (fun t => { error_code := c.error_code, description := some t })

/-- The interface an ambient error type `E` offers to this crate: the
`ErrorCode` trait (`error_code`), the `Display` impl (`display`), and
`From<&str>` (`fromStr`).  `Debug` is only used for logging and is omitted. -/
structure ErrorApi (E : Type) where
  error_code : E → Int
  display : E → String
  fromStr : String → E

/-- `ffi_error` from `src/result.rs` (and the `ffi_error!` macro): the pair
of the error's `error_code()` and its `Display` text. -/
def ffi_error {E : Type} (api : ErrorApi E) (e : E) : Int × String :=
  (api.error_code e, api.display e)

/-- `ffi_result` from `src/result.rs` (and the `ffi_result!` macro):
`Ok(_)` maps to `(0, String::default())`, `Err(e)` to `ffi_error(e)`. -/
def ffi_result {E T : Type} (api : ErrorApi E) (res : Except E T) : Int × String :=
  match res with
  | .ok _ => (0, "")
  | .error e => ffi_error api e

/-- The observable behaviour of a closure run under `panic::catch_unwind`:
it either panics or returns its `Result`. -/
inductive FnOutcome (T E : Type) where
  | panics
  | ret (r : Except E T)

/-- `catch_unwind_result` from `src/catch_unwind.rs`: a caught panic becomes
`Err(E::from("panic"))`; otherwise the closure's own result is returned
unchanged. -/
def catch_unwind_result {T E : Type} (api : ErrorApi E) (f : FnOutcome T E) : Except E T :=
  match f with
  | .panics => .error (api.fromStr "panic")
  | .ret r => r

/-- The static fallback description used by `catch_unwind_cb` and the
`call_result_cb!` macro when the error text cannot become a `CString`
(the source byte literal, without its explicit NUL terminator). -/
def fallbackDescription : String :=
  "Could not convert error description into CString"

/-- `call_result_cb` (the function in `src/result.rs`).  It builds the
`FfiResult` with `unwrap!`, so a failed `into_repr_c` is a panic: `none`
means the function panicked and invoked no callback, `some r` means it
invoked the callback exactly once with `r`. -/
def call_result_cb {E T : Type} (api : ErrorApi E) (res : Except E T) : Option FfiResult :=
  let p := ffi_result api res
  match NativeResult.into_repr_c { error_code := p.1, description := some p.2 } with
  | .ok r => some r
  | .error _ => none

/-- The `call_result_cb!` macro from `src/macros.rs`: like the function, but
a failed `into_repr_c` degrades to the static fallback description paired
with the original code, and the callback is still invoked exactly once. -/
def call_result_cb_mac {E T : Type} (api : ErrorApi E) (res : Except E T) : FfiResult :=
  let p := ffi_result api res
  match NativeResult.into_repr_c { error_code := p.1, description := some p.2 } with
  | .ok r => r
  | .error _ => { error_code := p.1, description := some fallbackDescription }

/-- `catch_unwind_cb` from `src/catch_unwind.rs`.  The returned list holds
one `FfiResult` per callback invocation performed by the wrapper itself, in
order (the closure `f` fires the success callback on its own; those firings
are not the wrapper's).  The error branch of the source is line-for-line
the expansion of the `call_result_cb!` macro applied to `Err::<(), E>(err)`
(same `ffi_result!`, same `into_repr_c` match, same static fallback), so it
is modelled by `call_result_cb_mac`. -/
def catch_unwind_cb {E : Type} (api : ErrorApi E) (f : FnOutcome Unit E) : List FfiResult :=
  match catch_unwind_result api f with
  | .ok _ => []
  | .error err => [call_result_cb_mac api (.error err : Except E Unit)]

/-- `TestError` from `src/test_utils.rs`. -/
inductive TestError where
  | test
  | fromStr (s : String)
deriving DecidableEq, Repr

/-- The `ErrorCode`, `Display` and `From<&str>` impls of `TestError` in
`src/test_utils.rs`: codes -1 / -2, display "Test Error" / the carried
string, and `From<&str>` wraps the string. -/
def testErrorApi : ErrorApi TestError :=
  { error_code := fun e => match e with | .test => -1 | .fromStr _ => -2
    display := fun e => match e with | .test => "Test Error" | .fromStr s => s
    fromStr := .fromStr }

/-! ### Buffer ownership transfer (`src/vec.rs`) -/

/-- The property of a raw data pointer that the code branches on: the null
pointer, a non-null dangling pointer (such as the aligned placeholder
`0x1` that `as_mut_ptr` of an empty allocation returns), or a valid pointer
into a live allocation. -/
inductive Ptr where
  | null
  | dangling
  | valid
deriving DecidableEq, Repr

/-- The raw `(pointer, length)` pair produced by `vec_into_raw_parts`,
together with the contents of the allocation the pointer refers to (empty
when the pointer is not backed by an allocation). -/
structure RawParts (α : Type) where
  ptr : Ptr
  len : Nat
  mem : List α
deriving DecidableEq, Repr

/-- `vec_into_raw_parts` from `src/vec.rs`: `into_boxed_slice` shrinks the
allocation to exactly `len` elements, `as_mut_ptr` reads the data pointer
(per `std`, never null — for a zero-length boxed slice it is the dangling
aligned placeholder pointer), `mem::forget` gives up ownership. -/
def vec_into_raw_parts {α : Type} (v : List α) : RawParts α :=
  { ptr := if v.isEmpty then Ptr.dangling else Ptr.valid
    len := v.length
    mem := v }

/-- `vec_from_raw_parts` from `src/vec.rs`: rebuilds the vector from the
`len` elements starting at the pointer. -/
def vec_from_raw_parts {α : Type} (p : RawParts α) : List α :=
  p.mem.take p.len

/-- `vec_clone_from_raw_parts` from `src/vec.rs`: copies the `len` elements
starting at the pointer without taking ownership. -/
def vec_clone_from_raw_parts {α : Type} (mem : List α) (len : Nat) : List α :=
  mem.take len

/-- `impl SafePtr for Vec<T>` in `src/vec.rs`: the null pointer for an empty
vector, the real data pointer otherwise. -/
def as_safe_ptr {α : Type} (v : List α) : Ptr :=
  if v.isEmpty then Ptr.null else Ptr.valid

/-! ### Callback argument defaults (`src/callback.rs`)

The `CallbackArgs` trait.  The Rust scalar types are wrapped in one-field
structures so that each `impl` of the source corresponds to exactly one
instance here (no arithmetic is done on them, so `u32`/`usize` carry a `Nat`
and `i32`/`i64` an `Int`). -/

/-- Model of Rust `u32` as used for callback arguments. -/
structure U32 where
  val : Nat
deriving DecidableEq, Repr

/-- Model of Rust `i32` as used for callback arguments. -/
structure I32 where
  val : Int
deriving DecidableEq, Repr

/-- Model of Rust `i64` as used for callback arguments. -/
structure I64 where
  val : Int
deriving DecidableEq, Repr

/-- Model of Rust `u64` as used for callback arguments. -/
structure U64 where
  val : Nat
deriving DecidableEq, Repr

/-- Model of Rust `usize` as used for callback arguments. -/
structure USize' where
  val : Nat
deriving DecidableEq, Repr

/-- Model of Rust `*const T`. -/
structure ConstPtr (T : Type) where
  ptr : Ptr
deriving DecidableEq, Repr

/-- Model of Rust `*mut T`. -/
structure MutPtr (T : Type) where
  ptr : Ptr
deriving DecidableEq, Repr

/-- Model of Rust `[u8; 32]`. -/
def Bytes32 : Type := Fin 32 → Nat

/-- The `CallbackArgs` trait from `src/callback.rs`: "Return default value
for the type, used when calling the callback with error." -/
class CallbackArgs (α : Type) where
  default : α

/-- `impl CallbackArgs for ()`. -/
instance : CallbackArgs Unit := ⟨()⟩

/-- `impl CallbackArgs for bool`. -/
instance : CallbackArgs Bool := ⟨false⟩

/-- `impl CallbackArgs for u32`. -/
instance : CallbackArgs U32 := ⟨⟨0⟩⟩

/-- `impl CallbackArgs for i32`. -/
instance : CallbackArgs I32 := ⟨⟨0⟩⟩

/-- `impl CallbackArgs for i64`. -/
instance : CallbackArgs I64 := ⟨⟨0⟩⟩

/-- `impl CallbackArgs for u64`. -/
instance : CallbackArgs U64 := ⟨⟨0⟩⟩

/-- `impl CallbackArgs for usize`. -/
instance : CallbackArgs USize' := ⟨⟨0⟩⟩

/-- `impl<T> CallbackArgs for *const T`. -/
instance {T : Type} : CallbackArgs (ConstPtr T) := ⟨⟨Ptr.null⟩⟩

/-- `impl<T> CallbackArgs for *mut T`. -/
instance {T : Type} : CallbackArgs (MutPtr T) := ⟨⟨Ptr.null⟩⟩

/-- `impl CallbackArgs for [u8; 32]`: the all-zero array. -/
instance : CallbackArgs Bytes32 := ⟨fun _ => 0⟩

/-- The tuple impls of `CallbackArgs`: componentwise defaults.  (Rust's flat
`(T0, T1, T2)` and `(T0, T1, T2, T3)` impls correspond to the nested right
products this pair instance induces.) -/
instance {α β : Type} [CallbackArgs α] [CallbackArgs β] : CallbackArgs (α × β) :=
  ⟨(CallbackArgs.default, CallbackArgs.default)⟩

/-! ### Synchronous test harness (`src/test_utils.rs`)

Each `call_*` helper creates a one-shot channel, hands the sender to the
native operation inside the user data, and blocks on `rx.recv()` until the
harness callback deposits exactly one message.  The embedding models the
single observed callback firing by its arguments (`FfiResult` plus extras)
and each `call_*` function as the value the blocked `recv` returns.  A
failed `unwrap!` of argument reconstruction inside a harness callback is a
panic aborting the test run, modelled as `Option.none`. -/

/-- The `ReprC` trait interface used by the harness callbacks: fallible
reconstruction of a native `T` from its C representation `C`. -/
structure ReprCApi (T C Err : Type) where
  clone_from_repr_c : C → Except Err T

/-- `callback_0` from `src/test_utils.rs`: sends the result's error code. -/
def callback_0 (res : FfiResult) : Int :=
  res.error_code

/-- `call_0` / `call_0_with_custom` from `src/test_utils.rs`: receives the
code sent by `callback_0`; 0 becomes `Ok(())`, anything else `Err(code)`. -/
def call_0 (fired : FfiResult) : Except Int Unit :=
  let error := callback_0 fired
  if error = 0 then .ok () else .error error

/-- `callback_1` from `src/test_utils.rs`: on code 0 reconstructs the extra
argument (`unwrap!` = `none` on failure), otherwise sends `Err(code)`. -/
def callback_1 {T C Err : Type} (rc : ReprCApi T C Err) (res : FfiResult) (arg : C) :
    Option (Except Int T) :=
  if res.error_code = 0 then
    match rc.clone_from_repr_c arg with
    | .ok t => some (.ok t)
    | .error _ => none
  else some (.error res.error_code)

/-- `call_1` / `call_1_with_custom` from `src/test_utils.rs`: returns the
single message deposited by `callback_1`. -/
def call_1 {T C Err : Type} (rc : ReprCApi T C Err) (fired : FfiResult × C) :
    Option (Except Int T) :=
  callback_1 rc fired.1 fired.2

/-- `callback_2` from `src/test_utils.rs`: on code 0 reconstructs both extra
arguments, otherwise sends `Err(code)`. -/
def callback_2 {T0 C0 E0 T1 C1 E1 : Type} (rc0 : ReprCApi T0 C0 E0) (rc1 : ReprCApi T1 C1 E1)
    (res : FfiResult) (arg0 : C0) (arg1 : C1) : Option (Except Int (T0 × T1)) :=
  if res.error_code = 0 then
    match rc0.clone_from_repr_c arg0 with
    | .error _ => none
    | .ok t0 =>
      match rc1.clone_from_repr_c arg1 with
      | .error _ => none
      | .ok t1 => some (.ok (t0, t1))
  else some (.error res.error_code)

/-- `call_2` / `call_2_with_custom` from `src/test_utils.rs`. -/
def call_2 {T0 C0 E0 T1 C1 E1 : Type} (rc0 : ReprCApi T0 C0 E0) (rc1 : ReprCApi T1 C1 E1)
    (fired : FfiResult × C0 × C1) : Option (Except Int (T0 × T1)) :=
  callback_2 rc0 rc1 fired.1 fired.2.1 fired.2.2

/-- Reconstruct every element of a slice, as the loop in `callback_vec`
does; a single failed `unwrap!` aborts (`none`). -/
def cloneAll {T C Err : Type} (rc : ReprCApi T C Err) : List C → Option (List T)
  | [] => some []
  | c :: cs =>
    match rc.clone_from_repr_c c with
    | .error _ => none
    | .ok t => (cloneAll rc cs).map (fun ts => t :: ts)

/-- `callback_vec` from `src/test_utils.rs`: on code 0 copies `size`
elements out of the pointed-to memory (inside the callback) and
reconstructs each one; otherwise sends `Err(code)`. -/
def callback_vec {T C Err : Type} (rc : ReprCApi T C Err) (res : FfiResult)
    (mem : List C) (size : Nat) : Option (Except Int (List T)) :=
  if res.error_code = 0 then (cloneAll rc (mem.take size)).map .ok
  else some (.error res.error_code)

/-- `call_vec` / `call_vec_with_custom` from `src/test_utils.rs`. -/
def call_vec {T C Err : Type} (rc : ReprCApi T C Err)
    (fired : FfiResult × List C × Nat) : Option (Except Int (List T)) :=
  callback_vec rc fired.1 fired.2.1 fired.2.2

/-- `callback_vec_u8` from `src/test_utils.rs`: on code 0 copies the `len`
pointed-to bytes with `to_vec`, otherwise sends `Err(code)`. -/
def callback_vec_u8 (res : FfiResult) (mem : List Nat) (len : Nat) :
    Except Int (List Nat) :=
  if res.error_code = 0 then .ok (mem.take len)
  else .error res.error_code

/-- `call_vec_u8` / `call_vec_u8_with_custom` from `src/test_utils.rs`. -/
def call_vec_u8 (fired : FfiResult × List Nat × Nat) : Except Int (List Nat) :=
  callback_vec_u8 fired.1 fired.2.1 fired.2.2

/-- The `impl ReprC for i32` of `src/repr_c.rs`: the identity, never
failing. -/
def reprCI32 : ReprCApi Int Int Unit :=
  { clone_from_repr_c := fun n => .ok n }

/-! ## Theorems -/

/-- On the error path, the `call_result_cb!` macro (and hence the error
branch of `catch_unwind_cb`) delivers the original code paired with the
display text, or with the static fallback when that text holds an interior
NUL. -/
theorem call_result_cb_mac_error_eq {E T : Type} (api : ErrorApi E) (e : E) :
    call_result_cb_mac api (.error e : Except E T) =
      { error_code := api.error_code e
        description :=
          some (if containsNul (api.display e) then fallbackDescription else api.display e) } := by
  unfold call_result_cb_mac ffi_result ffi_error NativeResult.into_repr_c cstring_new
  by_cases h : containsNul (api.display e) <;> simp [h, Except.map]

/-- C1: `catch_unwind_cb` performs no callback invocation of its own when
`f` returns `Ok(())`, exactly one when `f` returns an error, and exactly
one with a nonzero code (the code of `E::from("panic")`) when `f` panics. -/
theorem c1_catch_unwind_cb_exactly_once {E : Type} (api : ErrorApi E)
    (h : api.error_code (api.fromStr "panic") ≠ 0) :
    catch_unwind_cb api (.ret (.ok ()) : FnOutcome Unit E) = [] ∧
    (∀ e : E, (catch_unwind_cb api (.ret (.error e))).length = 1) ∧
    ∃ r : FfiResult, catch_unwind_cb api (.panics : FnOutcome Unit E) = [r] ∧
      r.error_code = api.error_code (api.fromStr "panic") ∧ r.error_code ≠ 0 := by
  refine ⟨rfl, fun e => rfl, ?_⟩
  refine ⟨call_result_cb_mac api (.error (api.fromStr "panic") : Except E Unit), rfl, ?_, ?_⟩
  · rw [call_result_cb_mac_error_eq]
  · rw [call_result_cb_mac_error_eq]
    exact h

/-- C1 witness: `TestError` maps `"panic"` to code `-2 ≠ 0`; at that error
type the wrapper is silent on `Ok` and fires once with a nonzero code on a
panic. -/
theorem c1_witness :
    catch_unwind_cb testErrorApi (.ret (.ok ()) : FnOutcome Unit TestError) = [] ∧
    ∃ r : FfiResult, catch_unwind_cb testErrorApi (.panics : FnOutcome Unit TestError) = [r] ∧
      r.error_code = testErrorApi.error_code (testErrorApi.fromStr "panic") ∧ r.error_code ≠ 0 := by
  have h := c1_catch_unwind_cb_exactly_once testErrorApi (by decide)
  exact ⟨h.1, h.2.2⟩

/-- C2: `catch_unwind_result` maps a panic to `Err(E::from("panic"))` and
passes a non-panicking closure's own result through unchanged. -/
theorem c2_catch_unwind_result_spec {T E : Type} (api : ErrorApi E) :
    catch_unwind_result api (.panics : FnOutcome T E) = .error (api.fromStr "panic") ∧
    ∀ r : Except E T, catch_unwind_result api (.ret r) = r :=
  ⟨rfl, fun _ => rfl⟩

/-- C3 counterexample: on the error `TestError::FromStr("a\x00b")`, whose
display text holds an interior NUL, the `call_result_cb` function panics on
its `unwrap!` and invokes no callback at all, rather than invoking it once
with the fallback description as the claim states. -/
theorem c3_counterexample :
    call_result_cb testErrorApi (.error (TestError.fromStr "a\x00b") : Except TestError Unit) =
      none ∧
    call_result_cb testErrorApi (.error (TestError.fromStr "a\x00b") : Except TestError Unit) ≠
      some { error_code := -2, description := some fallbackDescription } := by
  constructor <;> decide

/-- C3 amended: when the error's display text holds an interior NUL,
`catch_unwind_cb` and the `call_result_cb!` macro invoke the callback
exactly once with the original code and the static fallback description,
but the `call_result_cb` function panics (`unwrap!`) and invokes no
callback. -/
theorem c3_amended {E : Type} (api : ErrorApi E) (e : E)
    (h : containsNul (api.display e) = true) :
    catch_unwind_cb api (.ret (.error e) : FnOutcome Unit E) =
      [{ error_code := api.error_code e, description := some fallbackDescription }] ∧
    call_result_cb_mac api (.error e : Except E Unit) =
      { error_code := api.error_code e, description := some fallbackDescription } ∧
    call_result_cb api (.error e : Except E Unit) = none := by
  have hm := call_result_cb_mac_error_eq (T := Unit) api e
  rw [h, if_pos rfl] at hm
  refine ⟨?_, hm, ?_⟩
  · show [call_result_cb_mac api (.error e : Except E Unit)] = _
    rw [hm]
  · unfold call_result_cb ffi_result ffi_error NativeResult.into_repr_c cstring_new
    simp [h, Except.map]

/-- C3 witness: the `TestError::FromStr("a\x00b")` instance of the amended
statement. -/
theorem c3_witness :
    containsNul (testErrorApi.display (TestError.fromStr "a\x00b")) = true ∧
    catch_unwind_cb testErrorApi
        (.ret (.error (TestError.fromStr "a\x00b")) : FnOutcome Unit TestError) =
      [{ error_code := -2, description := some fallbackDescription }] ∧
    call_result_cb_mac testErrorApi (.error (TestError.fromStr "a\x00b") : Except TestError Unit) =
      { error_code := -2, description := some fallbackDescription } := by
  have h := c3_amended testErrorApi (TestError.fromStr "a\x00b") (by decide)
  exact ⟨by decide, h.1, h.2.1⟩

/-- C4 counterexample: encoding `Ok` through `call_result_cb` delivers
`error_code = 0` with a present (non-null, empty) description, refuting the
claimed `code == 0 ⇔ description absent` invariant for that operation. -/
theorem c4_counterexample :
    ∃ r : FfiResult,
      call_result_cb testErrorApi (.ok () : Except TestError Unit) = some r ∧
      r.error_code = 0 ∧ r.description ≠ none :=
  ⟨{ error_code := 0, description := some "" }, by decide, rfl, by decide⟩

/-- C4 amended: `FFI_RESULT_OK` is code 0 with a null description, but
`ffi_result` encodes `Ok` as `(0, empty string)` (not an absent marker) and
`call_result_cb` wraps the description in `Some` unconditionally, so it
delivers an `Ok` result as code 0 with a non-null empty description; the
`code == 0 ⇔ description absent` invariant holds for `FFI_RESULT_OK` only. -/
theorem c4_amended {E T : Type} (api : ErrorApi E) (t : T) :
    FFI_RESULT_OK.error_code = 0 ∧ FFI_RESULT_OK.description = none ∧
    ffi_result api (.ok t : Except E T) = (0, "") ∧
    call_result_cb api (.ok t : Except E T) =
      some { error_code := 0, description := some "" } :=
  ⟨rfl, rfl, rfl, rfl⟩

/-- C5 counterexample: `String`'s `clone_from_repr_c` on the null pointer
returns `Ok` of the empty string — it never returns `StringError::Null`,
contrary to the claim. -/
theorem c5_counterexample :
    string_clone_from_repr_c none = .ok "" ∧
    ∀ msg : String, string_clone_from_repr_c none ≠ .error (StringError.null msg) :=
  ⟨rfl, fun _ h => Except.noConfusion h⟩

/-- C5 amended: `from_c_str` rejects the null pointer with
`StringError::Null`, but `String`'s `clone_from_repr_c` silently coerces
the null pointer to the empty string (`String::default()`), deferring to
`from_c_str` only on non-null input. -/
theorem c5_amended :
    from_c_str none =
      .error (StringError.null "String could not be constructed from C null pointer") ∧
    string_clone_from_repr_c none = .ok "" ∧
    ∀ s : String, string_clone_from_repr_c (some s) = from_c_str (some s) :=
  ⟨rfl, rfl, fun _ => rfl⟩

/-- C6: `vec_from_raw_parts` applied to the parts produced by
`vec_into_raw_parts` reconstructs the original vector, empty or not. -/
theorem c6_vec_roundtrip {α : Type} (v : List α) :
    vec_from_raw_parts (vec_into_raw_parts v) = v := by
  simp [vec_from_raw_parts, vec_into_raw_parts]

/-- C7 counterexample: transferring the empty vector through
`vec_into_raw_parts` exposes the boxed slice's dangling, non-null data
pointer mid-transfer, contrary to the claim that no non-null dangling
pointer is exposed. -/
theorem c7_counterexample :
    (vec_into_raw_parts ([] : List Nat)).ptr = Ptr.dangling ∧ Ptr.dangling ≠ Ptr.null :=
  ⟨rfl, by decide⟩

/-- C7 amended: `as_safe_ptr` returns the null pointer exactly on the empty
vector (and the valid data pointer otherwise), but `vec_into_raw_parts` on
the empty vector hands out the dangling non-null placeholder pointer of a
zero-length boxed slice (the round trip still reconstructs the vector). -/
theorem c7_amended {α : Type} (v : List α) :
    (as_safe_ptr v = Ptr.null ↔ v = []) ∧
    (vec_into_raw_parts v).ptr = (if v.isEmpty then Ptr.dangling else Ptr.valid) ∧
    vec_from_raw_parts (vec_into_raw_parts v) = v := by
  refine ⟨?_, rfl, by simp [vec_from_raw_parts, vec_into_raw_parts]⟩
  cases v <;> simp [as_safe_ptr]

/-- C8: each harness variant turns the single observed callback firing into
`Ok` of the reconstructed extra argument(s) when the carried code is 0 and
into `Err(code)` otherwise. -/
theorem c8_harness_spec {T0 C0 E0 T1 D1 E1 : Type}
    (rc0 : ReprCApi T0 C0 E0) (rc1 : ReprCApi T1 D1 E1)
    (res : FfiResult) (c0 : C0) (c1 : D1) (t0 : T0) (t1 : T1)
    (mem : List C0) (size : Nat) (ts : List T0) (bytes : List Nat) (len : Nat) :
    (res.error_code = 0 →
      call_0 res = .ok () ∧
      (rc0.clone_from_repr_c c0 = .ok t0 → call_1 rc0 (res, c0) = some (.ok t0)) ∧
      (rc0.clone_from_repr_c c0 = .ok t0 → rc1.clone_from_repr_c c1 = .ok t1 →
        call_2 rc0 rc1 (res, c0, c1) = some (.ok (t0, t1))) ∧
      (cloneAll rc0 (mem.take size) = some ts →
        call_vec rc0 (res, mem, size) = some (.ok ts)) ∧
      call_vec_u8 (res, bytes, len) = .ok (bytes.take len)) ∧
    (res.error_code ≠ 0 →
      call_0 res = .error res.error_code ∧
      call_1 rc0 (res, c0) = some (.error res.error_code) ∧
      call_2 rc0 rc1 (res, c0, c1) = some (.error res.error_code) ∧
      call_vec rc0 (res, mem, size) = some (.error res.error_code) ∧
      call_vec_u8 (res, bytes, len) = .error res.error_code) := by
  constructor
  · intro h
    refine ⟨?_, ?_, ?_, ?_, ?_⟩
    · simp [call_0, callback_0, h]
    · intro h0
      simp [call_1, callback_1, h, h0]
    · intro h0 h1
      simp [call_2, callback_2, h, h0, h1]
    · intro hv
      simp [call_vec, callback_vec, h, hv]
    · simp [call_vec_u8, callback_vec_u8, h]
  · intro h
    exact ⟨by simp [call_0, callback_0, h],
      by simp [call_1, callback_1, h],
      by simp [call_2, callback_2, h],
      by simp [call_vec, callback_vec, h],
      by simp [call_vec_u8, callback_vec_u8, h]⟩

/-- C8 witness: a success firing carrying `42` with code 0 yields `Ok(42)`
through `call_1`, and a firing with code `-2` yields `Err(-2)` through
`call_0`. -/
theorem c8_witness :
    call_1 reprCI32 ({ error_code := 0, description := none }, 42) = some (.ok 42) ∧
    call_0 { error_code := -2, description := none } = .error (-2) := by
  have h0 := c8_harness_spec reprCI32 reprCI32
    { error_code := 0, description := none } 42 42 42 42 [] 0 [] [] 0
  have h1 := c8_harness_spec reprCI32 reprCI32
    { error_code := -2, description := none } 42 42 42 42 [] 0 [] [] 0
  exact ⟨(h0.1 rfl).2.1 rfl, (h1.2 (by decide)).1⟩

/-- C9: the `CallbackArgs` defaults are 0 for every numeric type, null for
both pointer flavours, the all-zero array for `[u8; 32]`, `false` for
`bool`, unit for no argument, and componentwise over tuples of arity 2, 3
and 4. -/
theorem c9_callback_defaults {A B C D : Type}
    [CallbackArgs A] [CallbackArgs B] [CallbackArgs C] [CallbackArgs D] :
    (CallbackArgs.default : Unit) = () ∧
    (CallbackArgs.default : Bool) = false ∧
    (CallbackArgs.default : U32) = ⟨0⟩ ∧
    (CallbackArgs.default : I32) = ⟨0⟩ ∧
    (CallbackArgs.default : I64) = ⟨0⟩ ∧
    (CallbackArgs.default : U64) = ⟨0⟩ ∧
    (CallbackArgs.default : USize') = ⟨0⟩ ∧
    (∀ T : Type, (CallbackArgs.default : ConstPtr T) = ⟨Ptr.null⟩) ∧
    (∀ T : Type, (CallbackArgs.default : MutPtr T) = ⟨Ptr.null⟩) ∧
    (CallbackArgs.default : Bytes32) = (fun _ => 0) ∧
    (CallbackArgs.default : A × B) = (CallbackArgs.default, CallbackArgs.default) ∧
    (CallbackArgs.default : A × B × C) =
      (CallbackArgs.default, CallbackArgs.default, CallbackArgs.default) ∧
    (CallbackArgs.default : A × B × C × D) =
      (CallbackArgs.default, CallbackArgs.default, CallbackArgs.default,
        CallbackArgs.default) :=
  ⟨rfl, rfl, rfl, rfl, rfl, rfl, rfl, fun _ => rfl, fun _ => rfl, rfl, rfl, rfl, rfl⟩

/-- C10: for a `NativeResult` whose description (when present) has no
interior NUL, `into_repr_c` succeeds — absent descriptions to the null
pointer, present ones (the empty string included) to a non-null C string —
and `clone_from_repr_c` maps the produced `FfiResult` back to an equal
`NativeResult`. -/
theorem c10_native_result_roundtrip (r : NativeResult)
    (h : containsNul (r.description.getD "") = false) :
    ∃ c : FfiResult,
      r.into_repr_c = .ok c ∧
      (c.description = none ↔ r.description = none) ∧
      NativeResult.clone_from_repr_c c = .ok r := by
  cases r with
  | mk code desc =>
    cases desc with
    | none => exact ⟨{ error_code := code, description := none }, rfl, by simp, rfl⟩
    | some s =>
      have hs : containsNul s = false := h
      refine ⟨{ error_code := code, description := some s }, ?_, by simp, rfl⟩
      unfold NativeResult.into_repr_c cstring_new
      simp [hs, Except.map]

/-- C10 witness: the round trip at a present empty description (code 3) and
at an absent description (code 0). -/
theorem c10_witness :
    (∃ c : FfiResult,
      NativeResult.into_repr_c { error_code := 3, description := some "" } = .ok c ∧
      (c.description = none ↔ (some "" : Option String) = none) ∧
      NativeResult.clone_from_repr_c c = .ok { error_code := 3, description := some "" }) ∧
    (∃ c : FfiResult,
      NativeResult.into_repr_c { error_code := 0, description := none } = .ok c ∧
      (c.description = none ↔ (none : Option String) = none) ∧
      NativeResult.clone_from_repr_c c = .ok { error_code := 0, description := none }) :=
  ⟨c10_native_result_roundtrip { error_code := 3, description := some "" } (by decide),
    c10_native_result_roundtrip { error_code := 0, description := none } (by decide)⟩

end FfiUtils
